import Mathlib

/-!
Shallow embedding of the conversion-dispatch / encoder-fallback pipeline and
the download-orchestration / progress-aggregation pipeline of
LaceEditing/laces-total-file-converter (src/main.py), together with proofs of
the specification claims about them.

Conventions of the embedding:
* external subprocess invocations are represented by the argv list
  (`List String`) that `subprocess.run` receives; the external process's
  observable result (its exit code, or the text it printed to stderr) is an
  explicit input of the embedded function;
* Python truthiness on optional / numeric values is made explicit
  (`none`/`0` are falsy);
* `time.time()` values are modelled as natural-number seconds;
* fractional arithmetic (progress percentages, per-item time estimates) is
  carried out in `ℚ`.
-/

namespace LacesConverter

/-- `pat` occurs at the very start of `s` (character lists). -/
def isStartOf : List Char → List Char → Bool
  | [], _ => true
  | _ :: _, [] => false
  | a :: as, b :: bs => a = b && isStartOf as bs

/-- `pat` occurs somewhere inside `s` (character lists). -/
def occursIn (pat : List Char) : List Char → Bool
  | [] => isStartOf pat []
  | b :: bs => isStartOf pat (b :: bs) || occursIn pat bs

/-- Membership of a pattern string inside another string.  Used to model
Python's `in` operator on strings. -/
def strContains (s pat : String) : Bool :=
  occursIn pat.toList s.toList

/-- Python's `str.lower()`, character by character.  All format names the
program compares against are ASCII. -/
def strLower (s : String) : String :=
  String.mk (s.toList.map Char.toLower)

/-- Python `a or b` on numbers: `a` when `a` is truthy (nonzero), else `b`.
Models `d.get('total_bytes', 1) or d.get('total_bytes_estimate', 1)`. -/
def pyOrNat (a b : Nat) : Nat :=
  if a ≠ 0 then a else b

/-- `os.path.join` for one directory component. -/
def joinPath (dir name : String) : String :=
  dir ++ "/" ++ name

/- ----------------------------------------------------------------------
   FormatRegistry: the extension classification lists of `convert_audio`
   (src/main.py lines 1595-1597).
---------------------------------------------------------------------- -/

/-- `audio_formats` of `convert_audio`. -/
def audio_formats : List String := ["wav", "ogg", "flac", "mp3", "m4a"]

/-- `video_formats` of `convert_audio`. -/
def video_formats : List String := ["mp4", "avi", "mov", "mkv", "webm", "flv"]

/- ----------------------------------------------------------------------
   EncoderInvoker: `direct_ffmpeg_gpu_video2video`
   (src/main.py lines 1377-1511).
---------------------------------------------------------------------- -/

/-- The information carried by a propagated `subprocess.CalledProcessError`
of a failed encoder invocation: the nonzero exit code. -/
structure EncodeFailure where
  exitCode : Nat
deriving DecidableEq, Repr

/-- CPU command for a WebM target (the VP9/Opus profile), built both by the
early-return WebM branch (lines 1393-1405) and by the CPU-fallback chain
(lines 1471-1479). -/
def webm_cpu_cmd (ffmpeg input output : String) : List String :=
  [ffmpeg, "-i", input,
   "-c:v", "libvpx-vp9", "-crf", "30", "-b:v", "0",
   "-c:a", "libopus", "-b:a", "128k",
   "-y", output]

/-- The GPU argument template per output container
(src/main.py lines 1409-1447): AVI, FLV and the default (MP4/MKV/...)
profiles, each starting with the `-hwaccel cuda` hardware-acceleration
flags. -/
def gpu_cmd (ffmpeg input output fmt : String) : List String :=
  if strLower fmt = "avi" then
    [ffmpeg, "-hwaccel", "cuda", "-i", input,
     "-c:v", "mpeg4", "-q:v", "5", "-c:a", "mp3", "-y", output]
  else if strLower fmt = "flv" then
    [ffmpeg, "-hwaccel", "cuda", "-hwaccel_output_format", "cuda",
     "-i", input, "-c:v", "h264_nvenc", "-preset", "p1",
     "-profile:v", "main", "-level", "3.1",
     "-b:v", "2M", "-maxrate", "2.5M", "-bufsize", "4M",
     "-c:a", "aac", "-b:a", "128k",
     "-f", "flv",
     "-y", output]
  else
    [ffmpeg, "-hwaccel", "cuda", "-hwaccel_output_format", "cuda",
     "-i", input, "-c:v", "h264_nvenc", "-preset", "p1", "-tune", "hq",
     "-rc", "vbr", "-cq", "23", "-b:v", "0", "-maxrate", "130M",
     "-bufsize", "130M", "-spatial-aq", "1", "-c:a", "aac", "-b:a", "192k",
     "-y", output]

/-- The CPU fallback argument template per output container
(src/main.py lines 1463-1505). -/
def cpu_cmd (ffmpeg input output fmt : String) : List String :=
  if strLower fmt = "avi" then
    [ffmpeg, "-i", input,
     "-c:v", "mpeg4", "-q:v", "5", "-c:a", "mp3", "-y", output]
  else if strLower fmt = "webm" then
    webm_cpu_cmd ffmpeg input output
  else if strLower fmt = "flv" then
    [ffmpeg, "-i", input,
     "-c:v", "libx264", "-profile:v", "main", "-level", "3.1",
     "-preset", "medium", "-crf", "23",
     "-c:a", "aac", "-b:a", "128k",
     "-f", "flv",
     "-y", output]
  else
    [ffmpeg, "-i", input,
     "-c:v", "libx264", "-preset", "medium", "-crf", "23",
     "-c:a", "aac", "-b:a", "192k",
     "-y", output]

/-- `direct_ffmpeg_gpu_video2video` (src/main.py lines 1377-1511).
`gpuExit` / `cpuExit` are the exit codes the respective `subprocess.run`
invocations would observe (`check=True` raises on a nonzero code, and the
outer `except Exception: raise` re-raises it to the caller).
Returns the list of encoder invocations actually issued, in order, together
with the outcome:
* WebM target: the early-return branch runs the CPU VP9/Opus command only;
* otherwise the GPU template runs first; on failure exactly one CPU
  fallback command runs and its failure propagates as `EncodeFailure`. -/
def direct_ffmpeg_gpu_video2video (ffmpeg input output fmt : String)
    (gpuExit cpuExit : Nat) :
    List (List String) × Except EncodeFailure Unit :=
  if strLower fmt = "webm" then
    ([webm_cpu_cmd ffmpeg input output],
     if cpuExit = 0 then .ok () else .error ⟨cpuExit⟩)
  else
    if gpuExit = 0 then
      ([gpu_cmd ffmpeg input output fmt], .ok ())
    else
      ([gpu_cmd ffmpeg input output fmt, cpu_cmd ffmpeg input output fmt],
       if cpuExit = 0 then .ok () else .error ⟨cpuExit⟩)

/- ----------------------------------------------------------------------
   ConversionDispatcher: the per-item body of `convert_audio`
   (src/main.py lines 1575-1799).
---------------------------------------------------------------------- -/

/-- The audio-route codec argument chain shared by the video→audio branch
(lines 1685-1703) and the audio→audio branch (lines 1735-1753), keyed on
the output format. -/
def audioCodecArgs (fmt : String) : List String :=
  if fmt = "mp3" then ["-acodec", "libmp3lame", "-q:a", "2", "-b:a", "192k"]
  else if fmt = "ogg" then ["-acodec", "libvorbis", "-q:a", "6"]
  else if fmt = "flac" then ["-acodec", "flac"]
  else if fmt = "wav" then ["-acodec", "pcm_s16le"]
  else if fmt = "m4a" then ["-acodec", "aac", "-b:a", "192k"]
  else []

/-- `has_audio` of the video→audio branch (line 1669): the probe's stderr
must carry both the `Stream #0` and the `Audio:` markers.  The probe is run
with `check=False`, so a failing probe process does not raise: its stderr
simply lacks the markers and the item is conservatively treated as having
no audio track. -/
def hasAudioTrack (probeStderr : String) : Bool :=
  strContains probeStderr "Stream #0" && strContains probeStderr "Audio:"

/-- One input item of a conversion batch, together with the observable
behaviour of the external processes the item's route would invoke.
`input_path` is the (sanitised) path of the item, `input_extension` its
lowercased extension (`file_ext[1:].lower()`), `output_path` the joined
output-folder path; the `os.path` splitting/joining that produces them is
kept abstract. -/
structure ItemEnv where
  input_path : String
  input_extension : String
  output_path : String
  /-- stderr captured from the audio-stream probe, when the route runs it. -/
  probeStderr : String
  /-- exit code of the GPU encoder invocation, when the route runs it. -/
  gpuExit : Nat
  /-- exit code of the CPU encoder invocation, when the route runs it. -/
  cpuExit : Nat
  /-- exit code of the single audio-route ffmpeg invocation, when run. -/
  audioExit : Nat
  /-- the user's answer to the WebM long-conversion prompt
  (`askyesnocancel`: `none` = dialog cancelled). -/
  webmAnswer : Option Bool
deriving DecidableEq, Repr

/-- Why `convert_audio` returned early, aborting the whole batch. -/
inductive AbortReason where
  /-- `ValueError: Unsupported output format` (line 1645). -/
  | unsupportedFormat
  /-- the audio→video route: invalid conversion kind (lines 1649-1659). -/
  | invalidConversionKind
  /-- the video→audio route found no audio track (lines 1671-1681). -/
  | noAudioTrack
  /-- a `CalledProcessError` from an encoder invocation (lines 1785-1791). -/
  | encodeFailure (exitCode : Nat)
  /-- the user declined the WebM warning prompt (lines 1709-1723). -/
  | userCancelled
  /-- `ValueError: Unrecognized conversion scenario` (line 1759). -/
  | unrecognizedScenario
deriving DecidableEq, Repr

/-- How the loop body left one item: `next` proceeds to the following item
(carrying the `warned` flag), `abort` returns from `convert_audio`,
stopping the whole batch. -/
inductive StepOutcome where
  | next (warned : Bool)
  | abort (reason : AbortReason)
deriving DecidableEq, Repr

/-- Result of processing one item: the probe invocations issued (queries,
`check=False`), the encoder invocations issued (conversions, `check=True`),
and the loop outcome. -/
structure StepResult where
  probeCmds : List (List String)
  convCmds : List (List String)
  outcome : StepOutcome
deriving DecidableEq, Repr

/-- The loop body of `convert_audio` for one item (src/main.py lines
1621-1799), routing on (input extension, output format).  `use_gpu` is the
flag `convert_audio` receives from the GPU checkbox; the source never reads
it inside the function, and it is likewise unused here. -/
def convert_audio_item (ffmpeg output_format : String) (use_gpu : Bool)
    (warned : Bool) (it : ItemEnv) : StepResult :=
  -- `if output_format not in audio_formats + video_formats: raise ValueError`
  if output_format ∈ audio_formats ++ video_formats then
    -- audio → video: maths easter egg, then return (both prompt outcomes
    -- leave the function before any encoder invocation)
    if it.input_extension ∈ audio_formats ∧ output_format ∈ video_formats then
      ⟨[], [], .abort .invalidConversionKind⟩
    else if it.input_extension ∈ video_formats ∧ output_format ∈ audio_formats then
      -- video → audio: probe for an audio stream first
      let probe := [ffmpeg, "-i", it.input_path, "-hide_banner"]
      if hasAudioTrack it.probeStderr then
        let cmd := [ffmpeg, "-i", it.input_path, "-vn", "-y"]
          ++ audioCodecArgs output_format ++ [it.output_path]
        if it.audioExit = 0 then ⟨[probe], [cmd], .next warned⟩
        else ⟨[probe], [cmd], .abort (.encodeFailure it.audioExit)⟩
      else
        ⟨[probe], [], .abort .noAudioTrack⟩
    else if it.input_extension ∈ video_formats ∧ output_format ∈ video_formats then
      -- video → video: optional WebM prompt, then the GPU/CPU invoker
      if strLower output_format = "webm" ∧ warned = false then
        match it.webmAnswer with
        | none => ⟨[], [], .abort .userCancelled⟩
        | some false => ⟨[], [], .abort .userCancelled⟩
        | some true =>
          let r := direct_ffmpeg_gpu_video2video ffmpeg it.input_path
            it.output_path output_format it.gpuExit it.cpuExit
          match r.2 with
          | .ok _ => ⟨[], r.1, .next true⟩
          | .error f => ⟨[], r.1, .abort (.encodeFailure f.exitCode)⟩
      else
        let r := direct_ffmpeg_gpu_video2video ffmpeg it.input_path
          it.output_path output_format it.gpuExit it.cpuExit
        match r.2 with
        | .ok _ => ⟨[], r.1, .next warned⟩
        | .error f => ⟨[], r.1, .abort (.encodeFailure f.exitCode)⟩
    else if it.input_extension ∈ audio_formats ∧ output_format ∈ audio_formats then
      -- audio → audio: single invocation, no fallback
      let cmd := [ffmpeg, "-i", it.input_path, "-y"]
        ++ audioCodecArgs output_format ++ [it.output_path]
      if it.audioExit = 0 then ⟨[], [cmd], .next warned⟩
      else ⟨[], [cmd], .abort (.encodeFailure it.audioExit)⟩
    else
      ⟨[], [], .abort .unrecognizedScenario⟩
  else
    ⟨[], [], .abort .unsupportedFormat⟩

/-- Result of a whole conversion batch: every probe and encoder invocation
issued, and the abort reason if the batch stopped early (`none` = all items
processed). -/
structure BatchResult where
  probeCmds : List (List String)
  convCmds : List (List String)
  aborted : Option AbortReason
deriving DecidableEq, Repr

/-- `convert_audio` (src/main.py lines 1575-1799): process the items in
input order, threading the WebM `warned` flag, stopping the entire batch at
the first aborting item. -/
def convert_audio (ffmpeg output_format : String) (use_gpu : Bool) :
    Bool → List ItemEnv → BatchResult
  | _, [] => ⟨[], [], none⟩
  | warned, it :: rest =>
    let r := convert_audio_item ffmpeg output_format use_gpu warned it
    match r.outcome with
    | .abort reason => ⟨r.probeCmds, r.convCmds, some reason⟩
    | .next w =>
      let b := convert_audio ffmpeg output_format use_gpu w rest
      ⟨r.probeCmds ++ b.probeCmds, r.convCmds ++ b.convCmds, b.aborted⟩

/- ----------------------------------------------------------------------
   `safe_filename` (src/main.py lines 985-1025): input-name sanitisation.
   The file system is modelled as an association list of (path, contents).
---------------------------------------------------------------------- -/

/-- `os.path.exists` over the modelled file system. -/
def existsFs (fs : List (String × String)) (p : String) : Bool :=
  fs.any (fun e => e.1 = p)

/-- Contents stored at a path of the modelled file system. -/
def lookupFs : List (String × String) → String → Option String
  | [], _ => none
  | e :: rest, p => if e.1 = p then some e.2 else lookupFs rest p

/-- `os.rename old new` over the modelled file system: the entry at `old`
keeps its contents under the path `new`; every other entry is untouched. -/
def renameFs (fs : List (String × String)) (old new : String) :
    List (String × String) :=
  fs.map (fun e => if e.1 = old then (new, e.2) else e)

/-- `ch in allowed_chars` for
`allowed_chars = string.ascii_letters + string.digits + " ._-()"`. -/
def isAllowedChar (c : Char) : Bool :=
  c.isAlpha || c.isDigit || " ._-()".toList.contains c

/-- `''.join(ch if ch in allowed_chars else '_' for ch in base)`. -/
def sanitizeBase (base : String) : String :=
  String.mk (base.toList.map (fun c => if isAllowedChar c then c else '_'))

/-- The `while os.path.exists(new_path)` collision loop (lines 1007-1013).
The recursion is bounded by `fs.length + 1` candidate names, which is
enough fuel whenever the loop terminates at all on the modelled finite
file system. -/
def safe_filename_loop (dir safe_base ext : String)
    (fs : List (String × String)) : Nat → Nat → String → String
  | 0, _, cur => cur
  | fuel + 1, count, cur =>
    if existsFs fs cur then
      safe_filename_loop dir safe_base ext fs fuel (count + 1)
        (joinPath dir (safe_base ++ "_" ++ toString count ++ ext))
    else cur

/-- `safe_filename` (src/main.py lines 985-1025) over the modelled file
system.  The path is given pre-split as directory / base name / extension
(`os.path.split` and `os.path.splitext` are kept abstract); `renameOk`
models whether `os.rename` succeeds or raises `PermissionError`.
Returns the path the caller must use from now on, and the file system
after the call. -/
def safe_filename (dir base ext : String) (renameOk : Bool)
    (fs : List (String × String)) : String × List (String × String) :=
  let filename := base ++ ext
  let filepath := joinPath dir filename
  let safe_base0 := sanitizeBase base
  let safe_base := if safe_base0 = "" then "file" else safe_base0
  let safe_name := safe_base ++ ext
  if safe_name ≠ filename then
    let new_path := safe_filename_loop dir safe_base ext fs (fs.length + 1) 1
      (joinPath dir safe_name)
    if renameOk then (new_path, renameFs fs filepath new_path)
    else (filepath, fs)
  else (filepath, fs)

/- ----------------------------------------------------------------------
   `format_time` (src/main.py lines 2063-2085).
---------------------------------------------------------------------- -/

/-- `format_time` (src/main.py lines 2063-2085) on whole seconds.  For an
integral `seconds`, Python's `f"{x:.0f}"` renders the integer itself and
`//`, `%` are integer division and remainder. -/
def format_time (seconds : Nat) : String :=
  if seconds < 60 then
    toString seconds ++ "s"
  else if seconds < 3600 then
    toString (seconds / 60) ++ "m " ++ toString (seconds % 60) ++ "s"
  else
    toString (seconds / 3600) ++ "h " ++ toString (seconds % 3600 / 60) ++ "m"

/-- `format_time` on fractional seconds, as reached with the `ℚ`-valued
per-item time estimates.  Python renders `f"{x:.0f}"` by rounding to the
nearest integer (ties to even); `round` agrees except at exact .5 ties,
which no claim depends on. -/
def format_time_q (seconds : ℚ) : String :=
  if seconds < 60 then
    toString (round seconds) ++ "s"
  else if seconds < 3600 then
    toString ⌊seconds / 60⌋ ++ "m "
      ++ toString (round (seconds - 60 * (⌊seconds / 60⌋ : ℚ))) ++ "s"
  else
    toString ⌊seconds / 3600⌋ ++ "h "
      ++ toString ⌊(seconds - 3600 * (⌊seconds / 3600⌋ : ℚ)) / 60⌋ ++ "m"

/- ----------------------------------------------------------------------
   DownloadOrchestrator: `get_format_string` (src/main.py lines 2185-2216)
   and the format-selector choice of `modify_download_options`
   (lines 2256-2310).
---------------------------------------------------------------------- -/

/-- `audio_formats` of the download path (lines 2190 and 2257). -/
def dl_audio_formats : List String := ["mp3", "wav", "flac", "ogg", "m4a"]

/-- The mp4 `quality_map` with its `.get` default (lines 2197-2205). -/
def mp4_quality_map (quality : String) : String :=
  if quality = "Best" then
    "bestvideo[ext=mp4]+bestaudio[ext=m4a]/best[ext=mp4]/best"
  else if quality = "4K" then
    "bestvideo[height<=2160][ext=mp4]+bestaudio[ext=m4a]/best[height<=2160]/best"
  else if quality = "1440p" then
    "bestvideo[height<=1440][ext=mp4]+bestaudio[ext=m4a]/best[height<=1440]/best"
  else if quality = "1080p" then
    "bestvideo[height<=1080][ext=mp4]+bestaudio[ext=m4a]/best[height<=1080]/best"
  else if quality = "720p" then
    "bestvideo[height<=720][ext=mp4]+bestaudio[ext=m4a]/best[height<=720]/best"
  else if quality = "480p" then
    "bestvideo[height<=480][ext=mp4]+bestaudio[ext=m4a]/best[height<=480]/best"
  else
    "bestvideo[height<=1080][ext=mp4]+bestaudio[ext=m4a]/best[ext=mp4]/best"

/-- The non-mp4 video `quality_map` with its `.get` default
(lines 2208-2216). -/
def other_quality_map (quality : String) : String :=
  if quality = "Best" then
    "bestvideo+bestaudio/best"
  else if quality = "4K" then
    "bestvideo[height<=2160]+bestaudio/best[height<=2160]/best"
  else if quality = "1440p" then
    "bestvideo[height<=1440]+bestaudio/best[height<=1440]/best"
  else if quality = "1080p" then
    "bestvideo[height<=1080]+bestaudio/best[height<=1080]/best"
  else if quality = "720p" then
    "bestvideo[height<=720]+bestaudio/best[height<=720]/best"
  else if quality = "480p" then
    "bestvideo[height<=480]+bestaudio/best[height<=480]/best"
  else
    "bestvideo[height<=1080]+bestaudio/best[height<=1080]/best"

/-- `get_format_string` (src/main.py lines 2185-2216). -/
def get_format_string (quality format_type : String) : String :=
  if format_type ∈ dl_audio_formats then "bestaudio/best"
  else if format_type = "mp4" then mp4_quality_map quality
  else other_quality_map quality

/-- The `format` selector `modify_download_options` installs
(lines 2270, 2299-2310): the audio branch (taken for audio target formats,
and for YouTube-Music URLs regardless of format) fixes `bestaudio/best`;
the video branch takes `get_format_string` and, should it ever lack an
audio component, splices `+bestaudio` in after `bestvideo`.  The
SoundCloud/Bandcamp coercion (lines 2262-2268) rewrites the target format
to `mp3` before this point, feeding the audio branch. -/
def download_selector (quality format_type : String) (isYtMusic : Bool) :
    String :=
  if format_type ∈ dl_audio_formats ∨ isYtMusic = true then
    "bestaudio/best"
  else
    let fs := get_format_string quality format_type
    if strContains fs "bestaudio" = false then
      fs.replace "bestvideo" "bestvideo+bestaudio"
    else fs

/- ----------------------------------------------------------------------
   ProgressAggregator: `yt_dlp_progress_hook` (src/main.py lines
   2426-2648) and the surrounding `download_thread` state
   (lines 2936-3214).
---------------------------------------------------------------------- -/

/-- `d['status']` of a progress event. -/
inductive DStatus where
  | downloading
  | finished
  | error
deriving DecidableEq, Repr

/-- One raw progress event as the hook reads it from `d` /
`d['info_dict']`.  Absent dictionary keys are `none` (or the `.get`
default). -/
structure ProgressEvent where
  status : DStatus
  /-- `info_dict.get('playlist_index')`. -/
  playlist_index : Option Nat
  /-- `info_dict.get('n_entries')`. -/
  n_entries : Option Int
  /-- `d.get('downloaded_bytes', 0)`. -/
  downloaded_bytes : Nat
  /-- `d.get('total_bytes', <default>)`. -/
  total_bytes : Option Nat
  /-- `d.get('total_bytes_estimate', <default>)`. -/
  total_bytes_estimate : Option Nat
  /-- `time.time()` when the hook fires. -/
  now : Nat
deriving DecidableEq, Repr

/-- The module-level playlist tracking globals the hook mutates. -/
structure HookState where
  playlist_current_index : Int
  playlist_total_count : Int
  download_started_time : Option Nat
deriving DecidableEq, Repr

/-- Python truthiness of an optional natural (`None` and `0` are falsy). -/
def pyTruthyNat : Option Nat → Bool
  | none => false
  | some n => n != 0

/-- Python truthiness of an optional integer. -/
def pyTruthyInt : Option Int → Bool
  | none => false
  | some n => n != 0

/-- Python truthiness of the `download_started_time` global (`None` is
falsy; a `time.time()` value is nonzero hence truthy). -/
def startedTruthy : Option Nat → Bool
  | none => false
  | some t => t != 0

/-- The global-state update of `yt_dlp_progress_hook` (src/main.py lines
2462-2484): when the event carries truthy `playlist_index` and
`n_entries`, the index/count globals are overwritten, and
`download_started_time` is recorded at the current time when item 1 is
`downloading` and the timestamp is still falsy. -/
def yt_dlp_progress_hook_state (st : HookState) (e : ProgressEvent) :
    HookState :=
  if pyTruthyNat e.playlist_index && pyTruthyInt e.n_entries then
    { playlist_current_index := (e.playlist_index.getD 0 : Int),
      playlist_total_count := e.n_entries.getD 0,
      download_started_time :=
        if e.playlist_index.getD 0 = 1 ∧ e.status = .downloading
            ∧ startedTruthy st.download_started_time = false then
          some e.now
        else st.download_started_time }
  else st

/-- The playlist elapsed/remaining field of the status text (src/main.py
lines 2488-2520), appended verbatim to both the `downloading` status
(line 2572) and the `finished` status (line 2612).  Built only when
`playlist_current_index > 1 and playlist_total_count > 0 and
download_started_time`; otherwise the empty string, and the status carries
per-item progress only.  (`estimated_total_str` is also computed at line
2516 but never appended to any status text.) -/
def elapsedField (st : HookState) (now : Nat) : String :=
  if st.playlist_current_index > 1 ∧ st.playlist_total_count > 0
      ∧ startedTruthy st.download_started_time = true then
    let t0 := st.download_started_time.getD 0
    let elapsed : Nat := now - t0
    let avg : ℚ := (elapsed : ℚ) / ((st.playlist_current_index : ℚ) - 1)
    let remaining : ℚ :=
      (st.playlist_total_count : ℚ) - (st.playlist_current_index : ℚ) + 1
    let est_remaining : ℚ := avg * remaining
    " | Elapsed: " ++ format_time elapsed
      ++ ", Remaining: ~" ++ format_time_q est_remaining
  else ""

/-- The overall playlist percent of the `downloading` branch (src/main.py
lines 2554-2562), computed when both tracking globals are truthy:
`(current_index - 1 + downloaded_bytes / (total_bytes or
total_bytes_estimate or 1)) / total_count * 100`. -/
def downloadingPercent (st : HookState) (e : ProgressEvent) : Option ℚ :=
  if st.playlist_current_index ≠ 0 ∧ st.playlist_total_count ≠ 0 then
    some ((((st.playlist_current_index : ℚ) - 1)
        + (e.downloaded_bytes : ℚ)
          / ((pyOrNat (e.total_bytes.getD 1) (e.total_bytes_estimate.getD 1) : ℚ)))
      / (st.playlist_total_count : ℚ) * 100)
  else none

/-- The overall playlist percent of the `finished` branch (src/main.py
lines 2600-2604): `current_index / total_count * 100`. -/
def finishedPercent (st : HookState) : Option ℚ :=
  if st.playlist_current_index ≠ 0 ∧ st.playlist_total_count ≠ 0 then
    some ((st.playlist_current_index : ℚ) / (st.playlist_total_count : ℚ) * 100)
  else none

/-- The state evolution of one download run (src/main.py `download_thread`,
lines 2936-3214, then the hook during `ydl.download`): the worker resets
the three globals (lines 2956-2962), unconditionally records
`download_started_time = time.time()` at line 3214 immediately before the
extractor call, and the extractor then fires the progress hook once per
event, in order. -/
def download_thread_run (preDownloadTime : Nat)
    (events : List ProgressEvent) : HookState :=
  events.foldl yt_dlp_progress_hook_state
    { playlist_current_index := 0
      playlist_total_count := 0
      download_started_time := some preDownloadTime }

/- ----------------------------------------------------------------------
   Helper lemmas
---------------------------------------------------------------------- -/

/-- The converter's audio and video extension lists are disjoint. -/
theorem video_not_audio : ∀ x ∈ video_formats, x ∉ audio_formats := by
  decide

/-- A video target format (for every quality, known or unknown) yields a
selector that carries an explicit `+bestaudio` merge component. -/
theorem get_format_string_video_merges_audio (quality format_type : String)
    (h : format_type ∉ dl_audio_formats) :
    strContains (get_format_string quality format_type) "+bestaudio" = true := by
  rw [get_format_string, if_neg h]
  by_cases hm : format_type = "mp4"
  · rw [if_pos hm, mp4_quality_map]
    split_ifs <;> decide
  · rw [if_neg hm, other_quality_map]
    split_ifs <;> decide

/-- Every selector a video target produces mentions `bestaudio`, so the
defensive `+bestaudio` splice of `modify_download_options` never fires. -/
theorem get_format_string_video_has_bestaudio (quality format_type : String)
    (h : format_type ∉ dl_audio_formats) :
    strContains (get_format_string quality format_type) "bestaudio" = true := by
  rw [get_format_string, if_neg h]
  by_cases hm : format_type = "mp4"
  · rw [if_pos hm, mp4_quality_map]
    split_ifs <;> decide
  · rw [if_neg hm, other_quality_map]
    split_ifs <;> decide

/- ----------------------------------------------------------------------
   Claim theorems
---------------------------------------------------------------------- -/

/-- C10: for every non-negative whole number of seconds `s`, `format_time`
returns `"<s>s"` when `s < 60`, `"<m>m <r>s"` with `m = s / 60`,
`r = s % 60` when `60 ≤ s < 3600`, and `"<h>h <m>m"` with `h = s / 3600`,
`m = s % 3600 / 60` when `s ≥ 3600`. -/
theorem format_time_spec (s : Nat) :
    (s < 60 → format_time s = toString s ++ "s") ∧
    (60 ≤ s → s < 3600 →
      format_time s = toString (s / 60) ++ "m " ++ toString (s % 60) ++ "s") ∧
    (3600 ≤ s →
      format_time s
        = toString (s / 3600) ++ "h " ++ toString (s % 3600 / 60) ++ "m") := by
  refine ⟨fun h => ?_, fun h1 h2 => ?_, fun h => ?_⟩
  · rw [format_time, if_pos h]
  · rw [format_time, if_neg (by omega), if_pos h2]
  · rw [format_time, if_neg (by omega), if_neg (by omega)]

/-- Witness for C10 at 30, 90 and 7260 seconds. -/
theorem format_time_spec_witness :
    format_time 30 = toString 30 ++ "s" ∧
    format_time 90 = toString (90 / 60) ++ "m " ++ toString (90 % 60) ++ "s" ∧
    format_time 7260
      = toString (7260 / 3600) ++ "h " ++ toString (7260 % 3600 / 60) ++ "m" :=
  ⟨(format_time_spec 30).1 (by decide),
   (format_time_spec 90).2.1 (by decide) (by decide),
   (format_time_spec 7260).2.2 (by decide)⟩

/-- C5: for every video-to-video item whose target attempts the GPU (every
non-WebM target), when the GPU invocation exits nonzero exactly one CPU
fallback invocation follows, a nonzero CPU exit propagates as
`EncodeFailure` with that exit code, and a success outcome is only ever
reported when the CPU invocation exited zero. -/
theorem gpu_failure_one_cpu_retry (ffmpeg input output fmt : String)
    (gpuExit cpuExit : Nat) (hfmt : strLower fmt ≠ "webm")
    (hg : gpuExit ≠ 0) :
    (direct_ffmpeg_gpu_video2video ffmpeg input output fmt gpuExit cpuExit).1
      = [gpu_cmd ffmpeg input output fmt, cpu_cmd ffmpeg input output fmt] ∧
    (cpuExit ≠ 0 →
      (direct_ffmpeg_gpu_video2video ffmpeg input output fmt gpuExit cpuExit).2
        = .error ⟨cpuExit⟩) ∧
    ((direct_ffmpeg_gpu_video2video ffmpeg input output fmt gpuExit cpuExit).2
        = .ok () → cpuExit = 0) := by
  rw [direct_ffmpeg_gpu_video2video, if_neg hfmt, if_neg hg]
  refine ⟨rfl, fun hc => by rw [if_neg hc], fun h => ?_⟩
  by_cases hc : cpuExit = 0
  · exact hc
  · rw [if_neg hc] at h
    exact absurd h (by simp)

/-- Witness for C5: an mp4 item whose GPU and CPU invocations both exit 1. -/
theorem gpu_failure_one_cpu_retry_witness :
    (direct_ffmpeg_gpu_video2video "ffmpeg" "in.mp4" "out.mp4" "mp4" 1 1).1
      = [gpu_cmd "ffmpeg" "in.mp4" "out.mp4" "mp4",
         cpu_cmd "ffmpeg" "in.mp4" "out.mp4" "mp4"] ∧
    (direct_ffmpeg_gpu_video2video "ffmpeg" "in.mp4" "out.mp4" "mp4" 1 1).2
      = .error ⟨1⟩ :=
  ⟨(gpu_failure_one_cpu_retry "ffmpeg" "in.mp4" "out.mp4" "mp4" 1 1
      (by decide) (by decide)).1,
   (gpu_failure_one_cpu_retry "ffmpeg" "in.mp4" "out.mp4" "mp4" 1 1
      (by decide) (by decide)).2.1 (by decide)⟩

/-- C9: the orchestrator's extractor format selector always requests
audio: audio target formats (and the YouTube-Music override) select
`bestaudio/best`, and every video target, for every quality choice, yields
a selector carrying an explicit `+bestaudio` merge component, so
video-only output is never requested. -/
theorem download_selector_requests_audio (quality format_type : String)
    (isYtMusic : Bool) :
    (format_type ∈ dl_audio_formats →
      download_selector quality format_type isYtMusic = "bestaudio/best") ∧
    (isYtMusic = true →
      download_selector quality format_type isYtMusic = "bestaudio/best") ∧
    (format_type ∉ dl_audio_formats → isYtMusic = false →
      strContains (download_selector quality format_type isYtMusic)
        "+bestaudio" = true) := by
  refine ⟨fun h => ?_, fun h => ?_, fun h hm => ?_⟩
  · rw [download_selector, if_pos (Or.inl h)]
  · rw [download_selector, if_pos (Or.inr h)]
  · rw [download_selector, if_neg (by simp [h, hm])]
    rw [if_neg (by simp [get_format_string_video_has_bestaudio quality format_type h])]
    exact get_format_string_video_merges_audio quality format_type h

/-- Witness for C9: an mp3 target selects `bestaudio/best`; an mkv target
at 1080p carries `+bestaudio`. -/
theorem download_selector_requests_audio_witness :
    download_selector "256kb/s" "mp3" false = "bestaudio/best" ∧
    strContains (download_selector "1080p" "mkv" false) "+bestaudio" = true :=
  ⟨(download_selector_requests_audio "256kb/s" "mp3" false).1 (by decide),
   (download_selector_requests_audio "1080p" "mkv" false).2.2
      (by decide) (by decide)⟩

/-- C6: an item whose input extension is an audio format and whose output
format is a video format makes the dispatcher abort with
`InvalidConversionKind` before any encoder invocation — the item issues no
probe and no conversion command — and the whole batch stops there: the
remaining items, whatever they are, are never processed and contribute no
commands. -/
theorem audio_to_video_aborts_batch (ffmpeg output_format : String)
    (use_gpu warned : Bool) (it : ItemEnv) (rest : List ItemEnv)
    (hext : it.input_extension ∈ audio_formats)
    (hfmt : output_format ∈ video_formats) :
    convert_audio_item ffmpeg output_format use_gpu warned it
      = ⟨[], [], .abort .invalidConversionKind⟩ ∧
    convert_audio ffmpeg output_format use_gpu warned (it :: rest)
      = ⟨[], [], some .invalidConversionKind⟩ := by
  have h1 : output_format ∈ audio_formats ++ video_formats :=
    List.mem_append_right _ hfmt
  have h2 : convert_audio_item ffmpeg output_format use_gpu warned it
      = ⟨[], [], .abort .invalidConversionKind⟩ := by
    rw [convert_audio_item, if_pos h1, if_pos ⟨hext, hfmt⟩]
  refine ⟨h2, ?_⟩
  simp only [convert_audio, h2]

/-- Witness for C6: a `song.wav` item converted to mp4, followed by a
further item that is consequently never processed. -/
theorem audio_to_video_aborts_batch_witness :
    convert_audio_item "ffmpeg" "mp4" true false
        ⟨"song.wav", "wav", "song.mp4", "", 0, 0, 0, none⟩
      = ⟨[], [], .abort .invalidConversionKind⟩ ∧
    convert_audio "ffmpeg" "mp4" true false
        [⟨"song.wav", "wav", "song.mp4", "", 0, 0, 0, none⟩,
         ⟨"b.mp4", "mp4", "b2.mp4", "", 0, 0, 0, none⟩]
      = ⟨[], [], some .invalidConversionKind⟩ :=
  audio_to_video_aborts_batch "ffmpeg" "mp4" true false
    ⟨"song.wav", "wav", "song.mp4", "", 0, 0, 0, none⟩
    [⟨"b.mp4", "mp4", "b2.mp4", "", 0, 0, 0, none⟩]
    (by decide) (by decide)

/-- C7: a video-to-audio item whose probe output carries no audio-track
marker (including a failed probe process, whose stderr lacks the markers,
so `hasAudioTrack` is conservatively false — witnessed here by the empty
stderr) makes the batch abort with the no-audio-track error after the
probe query only: no conversion command is issued for the item (hence no
output file is created), and the rest of the batch never runs. -/
theorem no_audio_track_aborts_batch (ffmpeg output_format : String)
    (use_gpu warned : Bool) (it : ItemEnv) (rest : List ItemEnv)
    (hext : it.input_extension ∈ video_formats)
    (hfmt : output_format ∈ audio_formats)
    (hna : hasAudioTrack it.probeStderr = false) :
    convert_audio_item ffmpeg output_format use_gpu warned it
      = ⟨[[ffmpeg, "-i", it.input_path, "-hide_banner"]], [],
         .abort .noAudioTrack⟩ ∧
    convert_audio ffmpeg output_format use_gpu warned (it :: rest)
      = ⟨[[ffmpeg, "-i", it.input_path, "-hide_banner"]], [],
         some .noAudioTrack⟩ ∧
    hasAudioTrack "" = false := by
  have h1 : output_format ∈ audio_formats ++ video_formats :=
    List.mem_append_left _ hfmt
  have h2 : convert_audio_item ffmpeg output_format use_gpu warned it
      = ⟨[[ffmpeg, "-i", it.input_path, "-hide_banner"]], [],
         .abort .noAudioTrack⟩ := by
    rw [convert_audio_item, if_pos h1,
      if_neg (fun hc => video_not_audio _ hext hc.1),
      if_pos ⟨hext, hfmt⟩, if_neg (by simp [hna])]
  refine ⟨h2, ?_, by decide⟩
  simp only [convert_audio, h2]

/-- Witness for C7: a `clip.mp4` item with an empty probe stderr (the
probe process failed or found no streams), target mp3, followed by an item
that is never processed. -/
theorem no_audio_track_aborts_batch_witness :
    convert_audio_item "ffmpeg" "mp3" true false
        ⟨"clip.mp4", "mp4", "clip.mp3", "", 0, 0, 0, none⟩
      = ⟨[["ffmpeg", "-i", "clip.mp4", "-hide_banner"]], [],
         .abort .noAudioTrack⟩ ∧
    convert_audio "ffmpeg" "mp3" true false
        [⟨"clip.mp4", "mp4", "clip.mp3", "", 0, 0, 0, none⟩,
         ⟨"b.wav", "wav", "b.mp3", "", 0, 0, 0, none⟩]
      = ⟨[["ffmpeg", "-i", "clip.mp4", "-hide_banner"]], [],
         some .noAudioTrack⟩ ∧
    hasAudioTrack "" = false :=
  no_audio_track_aborts_batch "ffmpeg" "mp3" true false
    ⟨"clip.mp4", "mp4", "clip.mp3", "", 0, 0, 0, none⟩
    [⟨"b.wav", "wav", "b.mp3", "", 0, 0, 0, none⟩]
    (by decide) (by decide) (by decide)

/-- Evaluation of the encoder invoker at a WebM target: the early-return
branch issues the CPU VP9/Opus command only, whatever the GPU exit code
would have been. -/
theorem direct_webm_eval (ffmpeg input output : String) (g c : Nat) :
    direct_ffmpeg_gpu_video2video ffmpeg input output "webm" g c
      = ([webm_cpu_cmd ffmpeg input output],
         if c = 0 then .ok () else .error ⟨c⟩) := by
  rw [direct_ffmpeg_gpu_video2video,
    if_pos (show strLower "webm" = "webm" by decide)]

/-- C1 counterexample: with the GPU flag disabled (`use_gpu = false`), a
video-to-video mp4 item still issues the GPU argument template — the
`-hwaccel cuda` invocation — contradicting the claim that disabling GPU
suppresses it. -/
theorem gpu_cmd_issued_with_gpu_disabled :
    (convert_audio_item "ffmpeg" "mp4" false false
        ⟨"in.mp4", "mp4", "out.mp4", "", 0, 0, 0, none⟩).convCmds
      = [["ffmpeg", "-hwaccel", "cuda", "-hwaccel_output_format", "cuda",
          "-i", "in.mp4", "-c:v", "h264_nvenc", "-preset", "p1",
          "-tune", "hq", "-rc", "vbr", "-cq", "23", "-b:v", "0",
          "-maxrate", "130M", "-bufsize", "130M", "-spatial-aq", "1",
          "-c:a", "aac", "-b:a", "192k", "-y", "out.mp4"]] := by
  decide

/-- C1 (amended): the conversion pipeline ignores the `use_gpu` flag — the
commands issued are identical whether GPU is enabled or disabled — and the
GPU argument template is skipped only for the GPU-ineligible WebM target:
a video-to-video WebM item only ever issues the CPU VP9/Opus command (or
none at all, when the user cancels the WebM prompt), never a GPU
command. -/
theorem webm_cpu_only_and_gpu_flag_ignored (ffmpeg output_format : String)
    (use_gpu warned : Bool) (it : ItemEnv) :
    convert_audio_item ffmpeg output_format true warned it
      = convert_audio_item ffmpeg output_format false warned it ∧
    (output_format = "webm" → it.input_extension ∈ video_formats →
      (convert_audio_item ffmpeg output_format use_gpu warned it).convCmds = []
      ∨ (convert_audio_item ffmpeg output_format use_gpu warned it).convCmds
          = [webm_cpu_cmd ffmpeg it.input_path it.output_path]) := by
  refine ⟨rfl, fun hf hext => ?_⟩
  subst hf
  have hna : it.input_extension ∉ audio_formats := video_not_audio _ hext
  rw [convert_audio_item,
    if_pos (show ("webm" : String) ∈ audio_formats ++ video_formats by decide),
    if_neg (fun hc => hna hc.1),
    if_neg (fun hc => (show ("webm" : String) ∉ audio_formats by decide) hc.2),
    if_pos ⟨hext, show ("webm" : String) ∈ video_formats by decide⟩]
  by_cases hw : warned = true
  · rw [if_neg (fun hc => by rw [hw] at hc; exact absurd hc.2 (by decide)),
      direct_webm_eval]
    by_cases hc : it.cpuExit = 0 <;> simp [hc]
  · have hw2 : warned = false := by
      cases warned
      · rfl
      · exact absurd rfl hw
    rw [if_pos ⟨show strLower "webm" = "webm" by decide, hw2⟩]
    cases hA : it.webmAnswer with
    | none => exact Or.inl rfl
    | some b =>
      cases b
      · exact Or.inl rfl
      · rw [direct_webm_eval]
        by_cases hc : it.cpuExit = 0 <;> simp [hc]

/-- Witness for C1 (amended): a WebM item with the prompt accepted issues
exactly the CPU VP9/Opus command; the flag value changes nothing. -/
theorem webm_cpu_only_and_gpu_flag_ignored_witness :
    convert_audio_item "ffmpeg" "webm" true false
        ⟨"in.mp4", "mp4", "out.webm", "", 0, 0, 0, some true⟩
      = convert_audio_item "ffmpeg" "webm" false false
        ⟨"in.mp4", "mp4", "out.webm", "", 0, 0, 0, some true⟩ ∧
    ((convert_audio_item "ffmpeg" "webm" false false
        ⟨"in.mp4", "mp4", "out.webm", "", 0, 0, 0, some true⟩).convCmds = []
      ∨ (convert_audio_item "ffmpeg" "webm" false false
          ⟨"in.mp4", "mp4", "out.webm", "", 0, 0, 0, some true⟩).convCmds
        = [webm_cpu_cmd "ffmpeg" "in.mp4" "out.webm"]) :=
  ⟨(webm_cpu_only_and_gpu_flag_ignored "ffmpeg" "webm" false false
      ⟨"in.mp4", "mp4", "out.webm", "", 0, 0, 0, some true⟩).1,
   (webm_cpu_only_and_gpu_flag_ignored "ffmpeg" "webm" false false
      ⟨"in.mp4", "mp4", "out.webm", "", 0, 0, 0, some true⟩).2
     rfl (by decide)⟩

/-- Renaming one path never changes any stored contents. -/
theorem renameFs_map_snd (fs : List (String × String)) (old nw : String) :
    (renameFs fs old nw).map Prod.snd = fs.map Prod.snd := by
  induction fs with
  | nil => rfl
  | cons e t ih =>
    simp only [renameFs, List.map_cons] at ih ⊢
    rw [ih]
    congr 1
    split <;> rfl

/-- Renaming one path leaves every entry at a different path untouched. -/
theorem renameFs_mem_of_ne {fs : List (String × String)} {old nw : String}
    {e : String × String} (he : e ∈ fs) (h : e.1 ≠ old) :
    e ∈ renameFs fs old nw := by
  unfold renameFs
  refine List.mem_map.mpr ⟨e, he, ?_⟩
  rw [if_neg h]

/-- `safe_filename` either leaves the file system alone or performs one
rename of the input path. -/
theorem safe_filename_fs_cases (dir base ext : String) (ok : Bool)
    (fs : List (String × String)) :
    (safe_filename dir base ext ok fs).2 = fs ∨
    ∃ nw, (safe_filename dir base ext ok fs).2
      = renameFs fs (joinPath dir (base ++ ext)) nw := by
  simp only [safe_filename]
  split_ifs <;> first
    | exact Or.inl rfl
    | exact Or.inr ⟨_, rfl⟩

/-- C3 counterexample: an input file whose name carries a disallowed
character is renamed on disk by the sanitisation step of the conversion
pipeline — the returned path differs from the input path and the original
path no longer exists — contradicting the claim that the input file's
path and name are never mutated. -/
theorem safe_filename_renames_input :
    safe_filename "d" "a#" ".wav" true [("d/a#.wav", "DATA")]
      = ("d/a_.wav", [("d/a_.wav", "DATA")]) ∧
    lookupFs (safe_filename "d" "a#" ".wav" true [("d/a#.wav", "DATA")]).2
      "d/a#.wav" = none := by
  decide

/-- C3 (amended): the sanitisation step may rename the input file (when
its base name carries characters outside the allowed set and the rename is
permitted), but it never mutates any file's contents — the stored contents
are preserved exactly — and every file other than the input keeps its path
and contents. -/
theorem safe_filename_preserves_contents (dir base ext : String) (ok : Bool)
    (fs : List (String × String)) :
    ((safe_filename dir base ext ok fs).2.map Prod.snd = fs.map Prod.snd) ∧
    (∀ e ∈ fs, e.1 ≠ joinPath dir (base ++ ext) →
      e ∈ (safe_filename dir base ext ok fs).2) := by
  rcases safe_filename_fs_cases dir base ext ok fs with h | ⟨nw, h⟩
  · rw [h]
    exact ⟨rfl, fun e he _ => he⟩
  · rw [h]
    exact ⟨renameFs_map_snd fs _ nw, fun e he hne => renameFs_mem_of_ne he hne⟩

/-- Witness for C3 (amended): the rename of `d/a#.wav` keeps all contents
and leaves the unrelated `d/b.wav` in place. -/
theorem safe_filename_preserves_contents_witness :
    ((safe_filename "d" "a#" ".wav" true
        [("d/a#.wav", "DATA"), ("d/b.wav", "B")]).2.map Prod.snd
      = [("d/a#.wav", "DATA"), ("d/b.wav", "B")].map Prod.snd) ∧
    ("d/b.wav", "B") ∈ (safe_filename "d" "a#" ".wav" true
        [("d/a#.wav", "DATA"), ("d/b.wav", "B")]).2 :=
  ⟨(safe_filename_preserves_contents "d" "a#" ".wav" true
      [("d/a#.wav", "DATA"), ("d/b.wav", "B")]).1,
   (safe_filename_preserves_contents "d" "a#" ".wav" true
      [("d/a#.wav", "DATA"), ("d/b.wav", "B")]).2
     ("d/b.wav", "B") (by decide) (by decide)⟩

/-- Once the started-at timestamp is truthy, no later progress event
changes it: the hook's recording guard requires a falsy timestamp. -/
theorem hook_preserves_started (st : HookState) (e : ProgressEvent)
    (h : startedTruthy st.download_started_time = true) :
    (yt_dlp_progress_hook_state st e).download_started_time
      = st.download_started_time := by
  rw [yt_dlp_progress_hook_state]
  split
  · dsimp only
    rw [if_neg (fun hc => by rw [h] at hc; exact absurd hc.2.2 (by decide))]
  · rfl

/-- Fold form of `hook_preserves_started` over a whole event trace. -/
theorem foldl_hook_preserves_started (events : List ProgressEvent) :
    ∀ st : HookState, startedTruthy st.download_started_time = true →
      (events.foldl yt_dlp_progress_hook_state st).download_started_time
        = st.download_started_time := by
  induction events with
  | nil => exact fun st _ => rfl
  | cons e t ih =>
    intro st h
    have hp := hook_preserves_started st e h
    rw [List.foldl_cons, ih _ (by rw [hp]; exact h), hp]

/-- C2 counterexample: a playlist download run already carries a started-at
timestamp before any progress event arrives (the worker records it just
before the extractor call), and the first `downloading` event of item 1
(here at time 150) does not re-record it — contradicting the claim that
the timestamp remains unset until that event and is recorded exactly
then. -/
theorem download_started_before_first_event_cex :
    (download_thread_run 100 []).download_started_time ≠ none ∧
    (download_thread_run 100
        [⟨.downloading, some 1, some 12, 0, some 1000, none, 150⟩]
      ).download_started_time = some 100 := by
  decide

/-- C2 (amended): the worker records the started-at timestamp immediately
before the extractor call, and it survives the entire event trace
unchanged; the hook's own recording on the first `downloading` event of
item 1 only fires when the timestamp is still unset (in which case it
records that event's time); elapsed time is computed as now minus the
recorded timestamp. -/
theorem download_started_time_semantics (t : Nat)
    (events : List ProgressEvent) (ht : t ≠ 0) :
    (download_thread_run t events).download_started_time = some t ∧
    (∀ st e, st.download_started_time = none → e.playlist_index = some 1 →
      pyTruthyInt e.n_entries = true → e.status = .downloading →
      (yt_dlp_progress_hook_state st e).download_started_time = some e.now) ∧
    (∀ st now t0, st.download_started_time = some t0 → t0 ≠ 0 →
      st.playlist_current_index > 1 → st.playlist_total_count > 0 →
      elapsedField st now
        = " | Elapsed: " ++ format_time (now - t0) ++ ", Remaining: ~"
          ++ format_time_q (((now - t0 : Nat) : ℚ)
              / ((st.playlist_current_index : ℚ) - 1)
            * ((st.playlist_total_count : ℚ)
              - (st.playlist_current_index : ℚ) + 1))) := by
  refine ⟨?_, ?_, ?_⟩
  · rw [download_thread_run, foldl_hook_preserves_started events _
      (by simp only [startedTruthy, bne_iff_ne, ne_eq]; exact ht)]
  · intro st e h1 h2 h3 h4
    rw [yt_dlp_progress_hook_state,
      if_pos (by simp [h2, h3, pyTruthyNat])]
    dsimp only
    rw [if_pos ⟨by rw [h2]; rfl, h4, by rw [h1]; rfl⟩]
  · intro st now t0 h0 ht0 hi htot
    rw [elapsedField, if_pos ⟨hi, htot, by
      rw [h0]; simp only [startedTruthy, bne_iff_ne, ne_eq]; exact ht0⟩, h0]
    rfl

/-- Witness for C2 (amended): a run started at time 100, one `downloading`
event of item 1 at time 150 (timestamp stays 100); the hook records 150
only from an unset state; elapsed at time 160 for item 6/12 started at
100. -/
theorem download_started_time_semantics_witness :
    (download_thread_run 100
        [⟨.downloading, some 1, some 12, 0, some 1000, none, 150⟩]
      ).download_started_time = some 100 ∧
    (yt_dlp_progress_hook_state ⟨0, 0, none⟩
        ⟨.downloading, some 1, some 12, 0, some 1000, none, 150⟩
      ).download_started_time = some 150 ∧
    elapsedField ⟨6, 12, some 100⟩ 160
      = " | Elapsed: " ++ format_time (160 - 100) ++ ", Remaining: ~"
        ++ format_time_q ((((160 - 100 : Nat) : ℚ))
            / (((6 : Int) : ℚ) - 1)
          * (((12 : Int) : ℚ) - ((6 : Int) : ℚ) + 1)) :=
  ⟨(download_started_time_semantics 100
      [⟨.downloading, some 1, some 12, 0, some 1000, none, 150⟩]
      (by decide)).1,
   (download_started_time_semantics 100 [] (by decide)).2.1
     ⟨0, 0, none⟩ ⟨.downloading, some 1, some 12, 0, some 1000, none, 150⟩
     rfl rfl (by decide) rfl,
   (download_started_time_semantics 100 [] (by decide)).2.2
     ⟨6, 12, some 100⟩ 160 100 rfl (by decide) (by decide) (by decide)⟩

/-- C4: while item `currentIndex` of a playlist with truthy tracking
globals is downloading, the overall percent equals
`((currentIndex − 1) + bytes_downloaded / bytes_total) / totalCount × 100`
whenever the event carries a nonzero `total_bytes`; and the finished
percent of item 6 of 12 (zero in-item fraction) is exactly 50. -/
theorem playlist_percent_formula (st : HookState) (e : ProgressEvent)
    (tb : Nat) (hidx : st.playlist_current_index ≠ 0)
    (htot : st.playlist_total_count ≠ 0)
    (htb : e.total_bytes = some tb) (htbpos : tb ≠ 0) :
    downloadingPercent st e
      = some ((((st.playlist_current_index : ℚ) - 1)
          + (e.downloaded_bytes : ℚ) / (tb : ℚ))
        / (st.playlist_total_count : ℚ) * 100) ∧
    finishedPercent ⟨6, 12, none⟩ = some 50 := by
  constructor
  · rw [downloadingPercent, if_pos ⟨hidx, htot⟩, htb,
      show pyOrNat ((some tb).getD 1) (e.total_bytes_estimate.getD 1) = tb from by
        simp [pyOrNat, htbpos]]
  · rw [finishedPercent, if_pos ⟨by decide, by decide⟩]
    norm_num

/-- Witness for C4: item 3 of 12 with 50 of 200 bytes downloaded reports
18.75% = 75/4; item 6 of 12 finished reports 50%. -/
theorem playlist_percent_formula_witness :
    downloadingPercent ⟨3, 12, none⟩
        ⟨.downloading, some 3, some 12, 50, some 200, none, 7⟩
      = some (75 / 4) ∧
    finishedPercent ⟨6, 12, none⟩ = some 50 := by
  constructor
  · rw [(playlist_percent_formula ⟨3, 12, none⟩
        ⟨.downloading, some 3, some 12, 50, some 200, none, 7⟩ 200
        (by decide) (by decide) rfl (by decide)).1]
    norm_num
  · exact (playlist_percent_formula ⟨3, 12, none⟩
      ⟨.downloading, some 3, some 12, 50, some 200, none, 7⟩ 200
      (by decide) (by decide) rfl (by decide)).2

/-- C8: when the playlist total count is unknown (−1), the status text's
playlist elapsed/estimated-remaining field — the only channel through
which the playlist ETA reaches any emitted status — is the empty string,
so only per-item progress is reported. -/
theorem unknown_count_omits_eta (st : HookState) (now : Nat)
    (h : st.playlist_total_count = -1) :
    elapsedField st now = "" := by
  rw [elapsedField,
    if_neg (fun hc => absurd (h ▸ hc.2.1) (by decide))]

/-- Witness for C8: a state with unknown count −1 yields no ETA field. -/
theorem unknown_count_omits_eta_witness :
    elapsedField ⟨5, -1, some 10⟩ 99 = "" :=
  unknown_count_omits_eta ⟨5, -1, some 10⟩ 99 rfl

end LacesConverter
